import Mathlib

/-!
Shallow embedding of the feedreader background fetch pipeline
(worker side: scheduler.py, consumer.py, fetcher.py, config.py;
api side: routers/feeds.py and the items unique constraint of
alembic versions/001_initial_migration.py), together with theorems
checking the natural-language specification against it.
-/

namespace FeedReader

/-- Single-quote character, used by the Python repr encoding of dicts. -/
def sq : Char := Char.ofNat 39

/-- Double-quote character. -/
def dq : Char := Char.ofNat 34

/-- Left brace character. -/
def lb : Char := Char.ofNat 123

/-- Right brace character. -/
def rb : Char := Char.ofNat 125

/-- Backslash character. -/
def bs : Char := Char.ofNat 92

/-- Value of an optional string attribute, defaulting to the empty string. -/
def orEmpty : Option String → String
  | none => ""
  | some s => s

/-- Python truthiness of an optional string attribute:
`hasattr(entry, f) and entry.f` is true exactly when the attribute is
present and a non-empty string; `none` models a missing attribute. -/
def truthy : Option String → Bool
  | none => false
  | some s => !s.isEmpty

/-- Python string slice `s[:n]`; slicing counts characters, as the source does. -/
def pyTake (n : Nat) (s : String) : String :=
  String.mk (s.toList.take n)

/-- First truthy value of a chain `a or b or ... or ""` of optional strings. -/
def firstTruthy : List (Option String) → String
  | [] => ""
  | x :: xs => if truthy x then orEmpty x else firstTruthy xs

/-- Worker configuration (worker config.py `WorkerSettings`), restricted to the
fields the pipeline reads, each with its source default. -/
structure WorkerSettings where
  fetch_default_interval : Int := 900
  fetch_concurrency : Nat := 10
  per_host_concurrency : Nat := 2
  fetch_timeout_seconds : Nat := 30
  scheduler_tick_seconds : Nat := 10
  scheduler_batch_size : Nat := 25
  extraction_engine : String := "trafilatura"

/-- The module-level `settings = WorkerSettings()` value with all defaults. -/
def settings : WorkerSettings := {}

/-- A parsed feed entry as exposed by feedparser, restricted to the attributes
the worker reads. `none` models a missing attribute, `some ""` a present but
empty one. `published_parsed` and `updated_parsed` carry the already converted
UTC instant (the `datetime(*parsed[:6])` conversion), `none` when the attribute
is missing or the conversion raises. `content` lists the `.value` of each
content block; `enclosures`, `entryLinks` and `media_content` carry
(type, href-or-url) pairs; `media_thumbnail` carries the `url` field of each
thumbnail block. -/
structure Entry where
  id : Option String := none
  link : Option String := none
  title : Option String := none
  published : Option String := none
  published_parsed : Option Int := none
  updated_parsed : Option Int := none
  content : List String := []
  summary : Option String := none
  media_thumbnail : List (Option String) := []
  enclosures : List (String × Option String) := []
  entryLinks : List (String × Option String) := []
  media_content : List (String × Option String) := []
deriving DecidableEq

/-- fetcher.py `_get_entry_guid`: the explicit id truncated to 512, else the
link truncated to 512, else SHA-256 hex of the title with the published string
appended when that attribute exists, else no identity. The standard library
digest `hashlib.sha256(x).hexdigest()` is passed in as `sha256hex`. -/
def get_entry_guid (sha256hex : String → String) (e : Entry) : Option String :=
  if truthy e.id then some (pyTake 512 (orEmpty e.id))
  else if truthy e.link then some (pyTake 512 (orEmpty e.link))
  else if truthy e.title then
    some (pyTake 512 (sha256hex (orEmpty e.title ++ orEmpty e.published)))
  else none

/-- Rule 3 of the spec identity derivation: SHA-256 hex of
(title concatenated with the published string); no identity if even the title
is absent. An absent or empty attribute does not count as carried. -/
def guidSpecNoLink (sha256hex : String → String) (e : Entry) : Option String :=
  match e.title with
  | none => none
  | some t =>
    if t.isEmpty then none
    else some (pyTake 512 (sha256hex (t ++ orEmpty e.published)))

/-- Rule 2 of the spec identity derivation: the link truncated to 512 bytes,
falling back to rule 3. -/
def guidSpecNoId (sha256hex : String → String) (e : Entry) : Option String :=
  match e.link with
  | none => guidSpecNoLink sha256hex e
  | some l => if l.isEmpty then guidSpecNoLink sha256hex e else some (pyTake 512 l)

/-- Modelled from the spec wording (identity of an entry): rule 1 uses the
explicit identifier truncated to 512 bytes, rule 2 the link, rule 3 the
SHA-256 hex of title concatenated with the published string, otherwise the
entry has no identity. Written only to be compared with `get_entry_guid`. -/
def guidSpec (sha256hex : String → String) (e : Entry) : Option String :=
  match e.id with
  | none => guidSpecNoId sha256hex e
  | some i => if i.isEmpty then guidSpecNoId sha256hex e else some (pyTake 512 i)

/-- A Python value of the shapes the pipeline serializes: strings, numbers,
None, and dicts with string keys. The numeric constructor carries the value as
an integer; only its JSON kind (number versus string) matters to any claim. -/
inductive PyVal where
  | pstr (s : String)
  | pnum (n : Int)
  | pnone
  | pdict (fields : List (String × PyVal))

mutual

/-- Python `str()` of such a value: single-quoted strings, `None`, and
`\x7b'k': v, ...\x7d` for dicts. This is the encoding produced wherever the
source publishes or enqueues with `str(obj)`. -/
def pyRepr : PyVal → String
  | .pstr s => String.singleton sq ++ s ++ String.singleton sq
  | .pnum n => toString n
  | .pnone => "None"
  | .pdict fs => String.singleton lb ++ pyReprFields fs ++ String.singleton rb

/-- Comma-separated `'key': value` renderings of dict fields. -/
def pyReprFields : List (String × PyVal) → String
  | [] => ""
  | [(k, v)] => String.singleton sq ++ k ++ String.singleton sq ++ ": " ++ pyRepr v
  | (k, v) :: rest =>
    String.singleton sq ++ k ++ String.singleton sq ++ ": " ++ pyRepr v ++ ", " ++
      pyReprFields rest

end

mutual

/-- Python `json.dumps` of such a value with its default separators:
double-quoted strings, `null` for None, `\x7b"k": v, ...\x7d` for dicts. None
of the strings the producers serialize contains a character that json.dumps
would escape, so no escaping is modelled. -/
def jsonDumps : PyVal → String
  | .pstr s => String.singleton dq ++ s ++ String.singleton dq
  | .pnum n => toString n
  | .pnone => "null"
  | .pdict fs => String.singleton lb ++ jsonDumpsFields fs ++ String.singleton rb

/-- Comma-separated `"key": value` renderings of dict fields. -/
def jsonDumpsFields : List (String × PyVal) → String
  | [] => ""
  | [(k, v)] => String.singleton dq ++ k ++ String.singleton dq ++ ": " ++ jsonDumps v
  | (k, v) :: rest =>
    String.singleton dq ++ k ++ String.singleton dq ++ ": " ++ jsonDumps v ++ ", " ++
      jsonDumpsFields rest

end

/-- Lookup of a dict field by key. -/
def dictGet (k : String) : PyVal → Option PyVal
  | .pdict fs => (fs.find? (fun p => p.1 == k)).map Prod.snd
  | _ => none

/-- A JSON value as produced by the consumer decode `json.loads`. -/
inductive Json where
  | jnull
  | jbool (b : Bool)
  | jnum (n : Int)
  | jstr (s : String)
  | jarr (elems : List Json)
  | jobj (fields : List (String × Json))

/-- JSON whitespace. -/
def isWs (c : Char) : Bool :=
  c = ' ' || c = Char.ofNat 10 || c = Char.ofNat 9 || c = Char.ofNat 13

/-- Skip leading JSON whitespace. -/
def skipWs : List Char → List Char
  | [] => []
  | c :: rest => if isWs c then skipWs rest else c :: rest

/-- Translation of a JSON string escape character. -/
def unescape (c : Char) : Option Char :=
  if c = dq then some dq
  else if c = bs then some bs
  else if c = '/' then some '/'
  else if c = 'n' then some (Char.ofNat 10)
  else if c = 't' then some (Char.ofNat 9)
  else if c = 'r' then some (Char.ofNat 13)
  else if c = 'b' then some (Char.ofNat 8)
  else if c = 'f' then some (Char.ofNat 12)
  else none

/-- Parse the body of a JSON string after its opening double quote; returns the
content and the remaining input. -/
def parseStringChars (fuel : Nat) (cs : List Char) : Option (List Char × List Char) :=
  match fuel, cs with
  | 0, _ => none
  | _, [] => none
  | fuel + 1, c :: rest =>
    if c = dq then some ([], rest)
    else if c = bs then
      match rest with
      | [] => none
      | e :: rest2 =>
        match unescape e with
        | none => none
        | some ch =>
          (parseStringChars fuel rest2).map (fun p => (ch :: p.1, p.2))
    else (parseStringChars fuel rest).map (fun p => (c :: p.1, p.2))

/-- Accumulate the digits of a JSON integer. -/
def parseDigits : List Char → Nat → (Nat × List Char)
  | [], acc => (acc, [])
  | c :: rest, acc =>
    if c.isDigit then parseDigits rest (acc * 10 + (c.toNat - 48)) else (acc, c :: rest)

mutual

/-- Recursive-descent parser for a JSON value, the consumer decode
`json.loads` restricted to the grammar its job and event payloads can use
(no fractional or exponent numbers; claims only exercise it on objects of
strings). Returns the parsed value and the remaining input. -/
def parseValue (fuel : Nat) (cs : List Char) : Option (Json × List Char) :=
  match fuel with
  | 0 => none
  | fuel + 1 =>
    match skipWs cs with
    | [] => none
    | c :: rest =>
      if c = dq then
        (parseStringChars fuel rest).map (fun p => (.jstr (String.mk p.1), p.2))
      else if c = lb then parseObj fuel rest
      else if c = '[' then parseArr fuel rest
      else if c = 't' then
        match rest with
        | 'r' :: 'u' :: 'e' :: r => some (.jbool true, r)
        | _ => none
      else if c = 'f' then
        match rest with
        | 'a' :: 'l' :: 's' :: 'e' :: r => some (.jbool false, r)
        | _ => none
      else if c = 'n' then
        match rest with
        | 'u' :: 'l' :: 'l' :: r => some (.jnull, r)
        | _ => none
      else if c = '-' then
        match rest with
        | d :: r =>
          if d.isDigit then
            let p := parseDigits (d :: r) 0
            some (.jnum (-(p.1 : Int)), p.2)
          else none
        | [] => none
      else if c.isDigit then
        let p := parseDigits (c :: rest) 0
        some (.jnum (p.1 : Int), p.2)
      else none

/-- Parse the members of a JSON object after its opening brace. -/
def parseObj (fuel : Nat) (cs : List Char) : Option (Json × List Char) :=
  match fuel with
  | 0 => none
  | fuel + 1 =>
    match skipWs cs with
    | [] => none
    | c :: rest =>
      if c = rb then some (.jobj [], rest)
      else if c = dq then parseMembers fuel (c :: rest)
      else none

/-- Parse one or more `"key": value` members followed by a closing brace. -/
def parseMembers (fuel : Nat) (cs : List Char) : Option (Json × List Char) :=
  match fuel with
  | 0 => none
  | fuel + 1 =>
    match skipWs cs with
    | [] => none
    | c :: rest =>
      if c = dq then
        match parseStringChars fuel rest with
        | none => none
        | some (k, r1) =>
          match skipWs r1 with
          | ':' :: r2 =>
            match parseValue fuel r2 with
            | none => none
            | some (v, r3) =>
              match skipWs r3 with
              | ',' :: r4 =>
                match parseMembers fuel r4 with
                | some (.jobj fs, r5) => some (.jobj ((String.mk k, v) :: fs), r5)
                | _ => none
              | c2 :: r4 =>
                if c2 = rb then some (.jobj [(String.mk k, v)], r4) else none
              | [] => none
          | _ => none
      else none

/-- Parse the elements of a JSON array after its opening bracket. -/
def parseArr (fuel : Nat) (cs : List Char) : Option (Json × List Char) :=
  match fuel with
  | 0 => none
  | fuel + 1 =>
    match skipWs cs with
    | ']' :: rest => some (.jarr [], rest)
    | other =>
      match parseValue fuel other with
      | none => none
      | some (v, r1) =>
        match skipWs r1 with
        | ',' :: r2 =>
          match parseArr fuel r2 with
          | some (.jarr vs, r3) => some (.jarr (v :: vs), r3)
          | _ => none
        | ']' :: r2 => some (.jarr [v], r2)
        | _ => none

end

/-- Consumer decode (consumer.py `_consume_jobs`): `json.loads(job_data)`.
Fails (raises, modelled as `none`) when the payload is not JSON or has
trailing input. -/
def jsonLoads (s : String) : Option Json :=
  match parseValue (s.toList.length + 1) s.toList with
  | none => none
  | some (v, rest) => if (skipWs rest).isEmpty then some v else none

/-- Job dict built by scheduler.py `_schedule_feeds`: job_id, feed_id,
scheduled_at and url, all strings. -/
def schedulerJobDict (jobId feedId scheduledAt url : String) : PyVal :=
  .pdict [("job_id", .pstr jobId), ("feed_id", .pstr feedId),
          ("scheduled_at", .pstr scheduledAt), ("url", .pstr url)]

/-- Payload the scheduler pushes on the rss:jobs queue:
`json.dumps(job_data)`. -/
def schedulerJobPayload (jobId feedId scheduledAt url : String) : String :=
  jsonDumps (schedulerJobDict jobId feedId scheduledAt url)

/-- Job dict built by routers/feeds.py `refresh_feed`: job_id, feed_id and
scheduled_at (no url field). -/
def refreshJobDict (jobId feedId scheduledAt : String) : PyVal :=
  .pdict [("job_id", .pstr jobId), ("feed_id", .pstr feedId),
          ("scheduled_at", .pstr scheduledAt)]

/-- Payload the manual-refresh endpoint pushes on the rss:jobs queue:
`str(job_data)`, the Python repr of the dict. -/
def refreshJobPayload (jobId feedId scheduledAt : String) : String :=
  pyRepr (refreshJobDict jobId feedId scheduledAt)

/-- Payload the feed-creation endpoint (routers/feeds.py `create_feed`) pushes
on the rss:jobs queue: also `str(job_data)` of a job_id, feed_id,
scheduled_at dict. -/
def createFeedJobPayload (jobId feedId scheduledAt : String) : String :=
  pyRepr (refreshJobDict jobId feedId scheduledAt)

/-- Event dict built by fetcher.py `_publish_new_items_event`: type
"new_items", timestamp `datetime.utcnow().isoformat()` (passed in as
`nowIso`), and data with feed_id and count. -/
def newItemsEvent (nowIso : String) (feedId : Nat) (count : Nat) : PyVal :=
  .pdict [("type", .pstr "new_items"), ("timestamp", .pstr nowIso),
          ("data", .pdict [("feed_id", .pstr (toString feedId)),
                           ("count", .pnum (count : Int))])]

/-- Wire payload of a new_items event: `str(event)`, the Python repr of the
dict, as published by `redis.publish("rss:events", str(event))`. -/
def newItemsPayload (nowIso : String) (feedId : Nat) (count : Nat) : String :=
  pyRepr (newItemsEvent nowIso feedId count)

/-- A feeds row as the scheduler reads it: id (the opaque uuid modelled as a
number), url, next_run_at and interval_seconds (instants as integer UTC
timestamps). -/
structure SchedFeed where
  id : Nat
  url : String
  next_run_at : Int
  interval_seconds : Int
deriving DecidableEq

/-- Ordering key of the scheduler query: `ORDER BY next_run_at` only. -/
def byNextRun (a b : SchedFeed) : Prop := a.next_run_at ≤ b.next_run_at

instance : DecidableRel byNextRun := fun _ _ => Int.decLe _ _

instance : IsTotal SchedFeed byNextRun := ⟨fun _ _ => Int.le_total _ _⟩

instance : IsTrans SchedFeed byNextRun := ⟨fun _ _ _ => Int.le_trans⟩

/-- The scheduler due-list query (scheduler.py `_schedule_feeds`):
`SELECT ... WHERE next_run_at <= now ORDER BY next_run_at LIMIT batch`.
The query constrains only the next_run_at order, so rows that tie are
returned in the unspecified storage order of `db`; a stable sort of the row
list models that. -/
def schedulerSelect (db : List SchedFeed) (now : Int) (batch : Nat) :
    List SchedFeed :=
  (((db.filter (fun f => f.next_run_at ≤ now)).insertionSort byNextRun).take batch)

/-- Scheduler environment: the uuid4 drawn for the k-th enqueued job and the
`datetime.utcnow().isoformat()` string used for scheduled_at. -/
structure SchedEnv where
  jobIdOf : Nat → String
  nowIso : String

/-- Outcome of one scheduler tick body: the payloads pushed on rss:jobs in
order, and the (feed id, new next_run_at) updates executed, all committed
together at the end of the tick. -/
structure SchedOutcome where
  jobs : List String
  updates : List (Nat × Int)
deriving DecidableEq

/-- scheduler.py `_schedule_feeds`: select the due feeds, then per feed
enqueue `json.dumps` of the job dict and update next_run_at to
`now + interval_seconds` (`now` is read once, before the loop). -/
def schedule_feeds (env : SchedEnv) (db : List SchedFeed) (now : Int)
    (batch : Nat) : SchedOutcome :=
  let feeds := schedulerSelect db now batch
  { jobs := (feeds.enum.map (fun p =>
      schedulerJobPayload (env.jobIdOf p.1) (toString p.2.id) env.nowIso p.2.url)),
    updates := feeds.map (fun f => (f.id, now + f.interval_seconds)) }

/-- The due-list selection as the spec words it: ordered ascending by
next_run_at with ties broken deterministically by feed id. Written only to be
compared with `schedulerSelect`. -/
def specSelect (db : List SchedFeed) (now : Int) (batch : Nat) :
    List SchedFeed :=
  (((db.filter (fun f => f.next_run_at ≤ now)).insertionSort
      (fun a b => a.next_run_at < b.next_run_at ∨
        (a.next_run_at = b.next_run_at ∧ a.id ≤ b.id))).take batch)

/-- A feeds row as the fetcher reads and updates it. Instants are integer UTC
timestamps; the opaque uuid is modelled as a number. -/
structure FeedRow where
  id : Nat
  url : String
  title : Option String := none
  etag : Option String := none
  last_modified : Option Int := none
  last_fetch_at : Option Int := none
  last_status : Option Int := none
deriving DecidableEq

/-- An items row as `_process_entries` builds it. The per-row uuid4 primary
key is not modelled; created_at and updated_at always equal fetched_at
(`now`) and are not repeated. -/
structure ItemRow where
  feed_id : Nat
  guid : String
  title : Option String
  url : Option String
  image_url : Option String
  content_html : Option String
  content_text : Option String
  published_at : Option Int
  fetched_at : Int
  hash : String
deriving DecidableEq

/-- A fetch_log row as `_log_fetch` builds it (uuid4 id not modelled). -/
structure FetchLogRow where
  feed_id : Nat
  status_code : Int
  duration_ms : Nat
  bytes : Nat
  error : Option String
  fetched_at : Int
deriving DecidableEq

/-- The update_data dict of `_update_feed_status`: last_fetch_at, last_status
and updated_at are always present; etag, last_modified and title are present
only when the corresponding argument is not None, so `none` here means the
column is left unchanged. -/
structure FeedUpdateData where
  last_fetch_at : Int
  last_status : Int
  updated_at : Int
  etag : Option String
  last_modified : Option Int
  title : Option String
deriving DecidableEq

/-- Effect of executing the UPDATE on a feeds row: keys absent from
update_data leave the column unchanged. -/
def applyFeedUpdate (f : FeedRow) (u : FeedUpdateData) : FeedRow :=
  { f with
    last_fetch_at := some u.last_fetch_at
    last_status := some u.last_status
    etag := match u.etag with | some e => some e | none => f.etag
    last_modified := match u.last_modified with | some t => some t | none => f.last_modified
    title := match u.title with | some t => some t | none => f.title }

/-- One database statement executed by the worker. -/
inductive DbOp where
  | insertItems (rows : List ItemRow) (onConflictDoNothing : Bool)
  | updateFeed (u : FeedUpdateData)
  | insertFetchLog (l : FetchLogRow)
deriving DecidableEq

/-- One observable effect of a feed fetch, in program order. A `txn` is one
`get_db_session` block whose statements are committed together by the single
`db.commit()` at its end; session blocks that never commit emit no `txn`. -/
inductive Eff where
  | acquireGate (host : String)
  | httpGet (host : String) (url : String)
  | txn (ops : List DbOp)
  | publishEvent (channel : String) (payload : String)
  | releaseGate (host : String)
deriving DecidableEq

/-- Response of an article-content GET. -/
structure ArticleResp where
  status : Int
  text : String

/-- External behavior a single feed fetch depends on: the standard-library
SHA-256 hex digest, the two extraction engines (trafilatura and
readability-lxml), the network behavior of article urls (`none` models a
raised transport error, which `_process_entries` swallows), the img-src
regex search, `parsedate_to_datetime` (`none` models a raise), and the
clock values read during the fetch. -/
structure FetchEnv where
  sha256hex : String → String
  extractTrafilatura : String → String → Option String × Option String
  extractReadability : String → Option String × Option String
  articleResponse : String → Option ArticleResp
  findImgSrc : String → Option String
  parseDate : String → Option Int
  now : Int
  nowIso : String
  durationMs : Nat
  extraction_engine : String := "trafilatura"

/-- Drop input up to and including the first "//". -/
def dropToAuthority : List Char → List Char
  | [] => []
  | [_] => []
  | c1 :: c2 :: rest =>
    if c1 = '/' && c2 = '/' then rest else dropToAuthority (c2 :: rest)

/-- urlparse(url).netloc for the http(s) urls the pipeline handles: the
authority between "//" and the next "/". -/
def netloc (url : String) : String :=
  String.mk ((dropToAuthority url.toList).takeWhile (fun c => c ≠ '/'))

/-- ContentExtractor.extract_content: dispatch on the configured engine;
an unknown engine yields (None, None). -/
def extractContent (env : FetchEnv) (html url : String) :
    Option String × Option String :=
  if env.extraction_engine == "trafilatura" then env.extractTrafilatura html url
  else if env.extraction_engine == "readability" then env.extractReadability html
  else (none, none)

/-- First image-typed element of a (type, href) list: the loop
`for x in xs: if x.type.startswith("image/"): take x.href; break`. The href
of the first image-typed element is taken even when it is missing. -/
def firstImageTyped (xs : List (String × Option String)) : Option String :=
  match xs.find? (fun p => p.1.startsWith ("image/")) with
  | some p => p.2
  | none => none

/-- Image url drawn from the entry structure: the if/elif chain over
media_thumbnail, enclosures, links and media_content. Only the first
non-empty attribute list is consulted. -/
def entryImageUrl (e : Entry) : Option String :=
  match e.media_thumbnail with
  | u :: _ => u
  | [] =>
    if !e.enclosures.isEmpty then firstImageTyped e.enclosures
    else if !e.entryLinks.isEmpty then firstImageTyped e.entryLinks
    else if !e.media_content.isEmpty then firstImageTyped e.media_content
    else none

/-- Full image_url computation: entry attributes, then the img-src regex
fallback on content_html when still falsy, then truncation to 2048. -/
def imageUrlFor (env : FetchEnv) (e : Entry) (contentHtml : Option String) :
    Option String :=
  let iu := entryImageUrl e
  let iu := if !truthy iu && truthy contentHtml then
      match env.findImgSrc (orEmpty contentHtml) with
      | some m => some m
      | none => iu
    else iu
  match iu with
  | some s => if s.length > 2048 then some (pyTake 2048 s) else some s
  | none => none

/-- Inline content of the entry: `content[0].value` when the content list is
non-empty, else the summary attribute when present. -/
def entryContentHtml (e : Entry) : Option String :=
  match e.content with
  | v :: _ => some v
  | [] => e.summary

/-- Published instant: published_parsed, falling back to updated_parsed. -/
def entryPublishedAt (e : Entry) : Option Int :=
  match e.published_parsed with
  | some t => some t
  | none => e.updated_parsed

/-- The on-conflict behavior of the INSERT built at fetcher.py:361:
`insert(Item).values(items_to_insert)` carries no ON CONFLICT clause. -/
def processEntriesOnConflictDoNothing : Bool := false

/-- The article-content HTTP request an entry issues during extraction:
`if url and settings.extraction_engine != "none"` the worker GETs the entry
url through the shared client, with no gate acquisition of its own (the
request runs while the feed-host gate of `fetch_feed` is still held). -/
def articleRequestEffs (env : FetchEnv) (url : Option String) : List Eff :=
  if truthy url && env.extraction_engine != "none" then
    [Eff.httpGet (netloc (orEmpty url)) (orEmpty url)]
  else []

/-- Body of one iteration of the `_process_entries` loop: the item row this
entry contributes (none when it is skipped) and the article-content HTTP
request it issues, if any. `dbItems` is the committed (feed_id, guid) set the
existence check reads. The response of that request, when the GET raises
nothing and returns 200, enriches the content through the extractor. -/
def process_entry (env : FetchEnv) (dbItems : List (Nat × String))
    (feed : FeedRow) (e : Entry) : Option ItemRow × List Eff :=
  match get_entry_guid env.sha256hex e with
  | none => (none, [])
  | some guid =>
    if (feed.id, guid) ∈ dbItems then (none, [])
    else
      let title := e.title.map (pyTake 1024)
      let url := e.link.map (pyTake 2048)
      let publishedAt := entryPublishedAt e
      let contentHtml0 := entryContentHtml e
      let imageUrl := imageUrlFor env e contentHtml0
      let enriched : Option String × Option String :=
        if truthy url && env.extraction_engine != "none" then
          let u := orEmpty url
          match env.articleResponse u with
          | none => (contentHtml0, none)
          | some r =>
            if r.status == 200 then
              let ex := extractContent env r.text u
              ((if truthy ex.1 then ex.1 else contentHtml0),
               (if truthy ex.2 then ex.2 else none))
            else (contentHtml0, none)
        else (contentHtml0, none)
      let contentHtml := enriched.1
      let contentText := enriched.2
      let contentForHash := firstTruthy [contentHtml, contentText, title, url]
      (some { feed_id := feed.id, guid := guid, title := title, url := url,
              image_url := imageUrl, content_html := contentHtml,
              content_text := contentText, published_at := publishedAt,
              fetched_at := env.now, hash := env.sha256hex contentForHash },
       articleRequestEffs env url)

/-- The `_process_entries` loop over all entries: collected rows and effects. -/
def processEntriesLoop (env : FetchEnv) (dbItems : List (Nat × String))
    (feed : FeedRow) : List Entry → List ItemRow × List Eff
  | [] => ([], [])
  | e :: rest =>
    let r := process_entry env dbItems feed e
    let rs := processEntriesLoop env dbItems feed rest
    ((match r.1 with | some row => row :: rs.1 | none => rs.1), r.2 ++ rs.2)

/-- fetcher.py `_process_entries`: early return on an empty entry list;
otherwise run the loop and, when any rows were built, execute the bulk INSERT
and commit. Returns new_items_count and the effects. -/
def process_entries (env : FetchEnv) (dbItems : List (Nat × String))
    (feed : FeedRow) (entries : List Entry) : Nat × List Eff :=
  if entries.isEmpty then (0, [])
  else
    let r := processEntriesLoop env dbItems feed entries
    (r.1.length,
     r.2 ++ (if r.1.isEmpty then []
             else [Eff.txn [DbOp.insertItems r.1 processEntriesOnConflictDoNothing]]))

/-- fetcher.py `_update_feed_status`: one session that executes the UPDATE
and commits. -/
def update_feed_status (env : FetchEnv) (status : Int) (etag : Option String)
    (lastModified : Option Int) (title : Option String) : List Eff :=
  [Eff.txn [DbOp.updateFeed
    { last_fetch_at := env.now, last_status := status, updated_at := env.now,
      etag := etag, last_modified := lastModified, title := title }]]

/-- fetcher.py `_log_fetch`: one session that inserts the FetchLog row and
commits. -/
def log_fetch (env : FetchEnv) (feedId : Nat) (status : Int) (bytes : Nat)
    (error : Option String) : List Eff :=
  [Eff.txn [DbOp.insertFetchLog
    { feed_id := feedId, status_code := status, duration_ms := env.durationMs,
      bytes := bytes, error := error, fetched_at := env.now }]]

/-- The response of the feed GET together with its feedparser parse: status
code, caching headers, body length, the bozo flag, the entry list, the
feed-level title when the parse exposes one, and the rendering of
bozo_exception. -/
structure RespData where
  status_code : Int
  etagHeader : Option String := none
  lastModifiedHeader : Option String := none
  contentLen : Nat := 0
  bozo : Bool := false
  entries : List Entry := []
  docTitle : Option String := none
  bozoMsg : String := ""

/-- Outcome of the feed GET: a response, or an exception raised by the
request (transport failure), which the outer handler turns into the
status-0 error path. -/
inductive HttpOutcome where
  | exn (msg : String)
  | resp (r : RespData)

/-- The result dict `fetch_feed` returns: status is "success",
"not_modified" or "error"; new_items is present on the first two; error on
the last. feed_id is rendered with str() where the dict is built. -/
structure FetchResult where
  status : String
  feed_id : Nat
  new_items : Option Nat
  error : Option String
deriving DecidableEq

/-- Body of fetcher.py `fetch_feed` inside the per-host semaphore block:
the four response cases (304, non-200, unparseable-and-empty, success) and
the exception handler. -/
def fetchFeedBody (env : FetchEnv) (dbItems : List (Nat × String))
    (feed : FeedRow) (out : HttpOutcome) : FetchResult × List Eff :=
  let host := netloc feed.url
  match out with
  | .exn msg =>
    ({ status := "error", feed_id := feed.id, new_items := none, error := some msg },
     [Eff.httpGet host feed.url] ++ log_fetch env feed.id 0 0 (some msg) ++
       update_feed_status env 0 none none none)
  | .resp r =>
    let reqEff := [Eff.httpGet host feed.url]
    if r.status_code == 304 then
      ({ status := "not_modified", feed_id := feed.id, new_items := some 0,
         error := none },
       reqEff ++ log_fetch env feed.id 304 0 none ++
         update_feed_status env 304 none none none)
    else if r.status_code != 200 then
      let msg := "HTTP " ++ toString r.status_code
      ({ status := "error", feed_id := feed.id, new_items := none,
         error := some msg },
       reqEff ++ log_fetch env feed.id r.status_code 0 (some msg) ++
         update_feed_status env r.status_code none none none)
    else if r.bozo && r.entries.isEmpty then
      let msg := "Feed parse error: " ++ r.bozoMsg
      ({ status := "error", feed_id := feed.id, new_items := none,
         error := some msg },
       reqEff ++ log_fetch env feed.id 200 r.contentLen (some msg))
    else
      let pe := process_entries env dbItems feed r.entries
      let etag := r.etagHeader
      let lastModified := r.lastModifiedHeader.bind env.parseDate
      let feedTitle :=
        if !truthy feed.title && r.docTitle.isSome then r.docTitle.map (pyTake 512)
        else feed.title
      ({ status := "success", feed_id := feed.id, new_items := some pe.1,
         error := none },
       reqEff ++ pe.2 ++
         update_feed_status env 200 etag lastModified feedTitle ++
         log_fetch env feed.id 200 r.contentLen none ++
         (if pe.1 > 0 then
            [Eff.publishEvent ("rss:events") (newItemsPayload env.nowIso feed.id pe.1)]
          else []))

/-- fetcher.py `fetch_feed`: acquire the semaphore keyed by the host of the
feed url, run the body, release on exit of the `async with` block. -/
def fetch_feed (env : FetchEnv) (dbItems : List (Nat × String))
    (feed : FeedRow) (out : HttpOutcome) : FetchResult × List Eff :=
  let host := netloc feed.url
  let r := fetchFeedBody env dbItems feed out
  (r.1, Eff.acquireGate host :: (r.2 ++ [Eff.releaseGate host]))

/-- The committed transactions of a trace, in order. -/
def dbTxns (tr : List Eff) : List (List DbOp) :=
  tr.filterMap (fun e => match e with | .txn ops => some ops | _ => none)

/-- Does a transaction contain an items bulk insert. -/
def hasItemInsert (ops : List DbOp) : Bool :=
  ops.any (fun o => match o with | .insertItems _ _ => true | _ => false)

/-- Does a transaction contain a feeds row update. -/
def hasFeedUpdate (ops : List DbOp) : Bool :=
  ops.any (fun o => match o with | .updateFeed _ => true | _ => false)

/-- Does a transaction contain a fetch_log append. -/
def hasLogAppend (ops : List DbOp) : Bool :=
  ops.any (fun o => match o with | .insertFetchLog _ => true | _ => false)

/-- Does some single transaction of the trace contain the items insert, the
feed update and the fetch_log append together. -/
def singleTxnWrite (tr : List Eff) : Bool :=
  (dbTxns tr).any (fun ops => hasItemInsert ops && hasFeedUpdate ops && hasLogAppend ops)

/-- Does any transaction of the trace update the feeds row. -/
def hasUpdateEff (tr : List Eff) : Bool := (dbTxns tr).any hasFeedUpdate

/-- Does any transaction of the trace append a fetch_log row. -/
def hasLogEff (tr : List Eff) : Bool := (dbTxns tr).any hasLogAppend

/-- Does any transaction of the trace insert item rows. -/
def hasInsertEff (tr : List Eff) : Bool := (dbTxns tr).any hasItemInsert

/-- The item rows inserted anywhere in the trace. -/
def insertedRows (tr : List Eff) : List ItemRow :=
  ((dbTxns tr).map (fun ops => ops.foldr (fun o acc =>
    match o with | .insertItems rows _ => rows ++ acc | _ => acc) [])).flatten

/-- The fetch_log rows appended anywhere in the trace. -/
def loggedRows (tr : List Eff) : List FetchLogRow :=
  ((dbTxns tr).map (fun ops => ops.foldr (fun o acc =>
    match o with | .insertFetchLog l => l :: acc | _ => acc) [])).flatten

/-- The feeds row updates executed anywhere in the trace. -/
def feedUpdates (tr : List Eff) : List FeedUpdateData :=
  ((dbTxns tr).map (fun ops => ops.foldr (fun o acc =>
    match o with | .updateFeed u => u :: acc | _ => acc) [])).flatten

/-- The hosts whose politeness gate is acquired in the trace, in order. -/
def gateAcquires (tr : List Eff) : List String :=
  tr.filterMap (fun e => match e with | .acquireGate h => some h | _ => none)

/-- The hosts whose politeness gate is released in the trace, in order. -/
def gateReleases (tr : List Eff) : List String :=
  tr.filterMap (fun e => match e with | .releaseGate h => some h | _ => none)

/-- Is every HTTP request of the trace issued while a gate for the host it
targets is held; `held` is the list of hosts whose gate is currently held. -/
def requestsGuarded (tr : List Eff) (held : List String) : Bool :=
  match tr with
  | [] => true
  | .acquireGate h :: rest => requestsGuarded rest (h :: held)
  | .releaseGate h :: rest => requestsGuarded rest (held.erase h)
  | .httpGet h _ :: rest => held.contains h && requestsGuarded rest held
  | _ :: rest => requestsGuarded rest held

/-- Is an effect a gate acquisition or release. -/
def isGate : Eff → Bool
  | .acquireGate _ => true
  | .releaseGate _ => true
  | _ => false

/-- Does a trace contain no gate acquisition or release. -/
def gateFree (tr : List Eff) : Bool := tr.all (fun x => !isGate x)

/-- Result of executing an INSERT statement on the items table. -/
inductive InsertResult where
  | ok (visible : List ItemRow)
  | uniqueViolation (offending : Nat × String)
deriving DecidableEq

/-- Relational semantics of executing a bulk INSERT against the items table,
whose constraint `uq_items_feed_guid` UNIQUE(feed_id, guid) is declared in
001_initial_migration.py. With no ON CONFLICT clause a conflicting row makes
the whole statement fail with a unique violation, aborting its transaction
(no row of the batch becomes visible); with ON CONFLICT DO NOTHING the
conflicting row is skipped and the rest proceed. `existing` is the set of
(feed_id, guid) keys committed at execution time. -/
def execInsertItems (existing : List (Nat × String)) (onConflictDoNothing : Bool) :
    List ItemRow → InsertResult
  | [] => .ok []
  | r :: rs =>
    let k := (r.feed_id, r.guid)
    if k ∈ existing then
      if onConflictDoNothing then execInsertItems existing onConflictDoNothing rs
      else .uniqueViolation k
    else
      match execInsertItems (k :: existing) onConflictDoNothing rs with
      | .ok vis => .ok (r :: vis)
      | .uniqueViolation k2 => .uniqueViolation k2

/-- Event dict built by consumer.py `_publish_fetch_status` from the result
dict of `fetch_feed`: type "fetch_status", timestamp
`asyncio.get_event_loop().time()` (a number, not a date string; its numeric
value is modelled as an integer since only its JSON kind matters to any
claim), and data with feed_id, status ("ok" exactly when the result status is
"success", else "error") and message. -/
def publish_fetch_status (loopTime : Int) (res : FetchResult) : PyVal :=
  .pdict [("type", .pstr ("fetch_status")), ("timestamp", .pnum loopTime),
          ("data", .pdict
            [("feed_id", .pstr (toString res.feed_id)),
             ("status", .pstr (if res.status == "success" then "ok" else "error")),
             ("message", match res.error with | some m => .pstr m | none => .pnone)])]

/-- Wire payload of a fetch_status event: `json.dumps(event)`. -/
def fetchStatusPayload (loopTime : Int) (res : FetchResult) : String :=
  jsonDumps (publish_fetch_status loopTime res)

/-- The status field inside the data object of a published event. -/
def eventDataStatus (v : PyVal) : Option PyVal :=
  (dictGet ("data") v).bind (dictGet ("status"))

/-- Concrete evaluation environment: a digest function that tags its input,
an article host that answers 200, and both extraction results non-empty. -/
def envX : FetchEnv where
  sha256hex := fun s => "sha-of-" ++ s
  extractTrafilatura := fun _ _ => (some ("extracted html"), some ("extracted text"))
  extractReadability := fun _ => (none, none)
  articleResponse := fun _ => some { status := 200, text := "article html" }
  findImgSrc := fun _ => none
  parseDate := fun _ => some 777
  now := 1000
  nowIso := "2025-01-19T12:00:00"
  durationMs := 5

/-- The same environment with extraction disabled, so a fetch issues no
article requests. -/
def envN : FetchEnv := { envX with extraction_engine := "none" }

/-- A concrete stored feed with caching headers set. -/
def feed1 : FeedRow where
  id := 1
  url := "http://feeds.example.com/rss"
  title := some ("Example feed")
  etag := some ("W/abc")
  last_modified := some 555

/-- A 304 Not Modified response. -/
def r304 : RespData := { status_code := 304 }

/-- A 200 response whose document is syntactically unparseable and exposes no
entries. -/
def rBozo : RespData :=
  { status_code := 200, contentLen := 17, bozo := true,
    bozoMsg := "not well-formed (invalid token)" }

/-- An entry carrying an explicit identifier and no link. -/
def entryA : Entry := { id := some ("urn:a") }

/-- A 200 response with one new entry and fresh caching headers. -/
def rOk : RespData :=
  { status_code := 200, etagHeader := some ("W/next"), contentLen := 2048,
    entries := [entryA] }

/-- An entry whose link points at a host different from the feed host. -/
def entryArt : Entry :=
  { id := some ("urn:art-1"), link := some ("http://cdn.example.org/article/1") }

/-- A 200 response with one entry whose article lives on another origin. -/
def rArt : RespData := { status_code := 200, contentLen := 500, entries := [entryArt] }

/-- A due feed with id 2 stored physically before the tied feed with id 1. -/
def feedT2 : SchedFeed :=
  { id := 2, url := "http://b.example.net/feed", next_run_at := 5, interval_seconds := 60 }

/-- A due feed with id 1, tied with feedT2 on next_run_at. -/
def feedT1 : SchedFeed :=
  { id := 1, url := "http://a.example.net/feed", next_run_at := 5, interval_seconds := 60 }

/-- A concrete scheduler environment. -/
def schedEnv0 : SchedEnv where
  jobIdOf := fun k => "job-" ++ toString k
  nowIso := "2025-01-19T12:00:00"

/-- An item row whose (feed_id, guid) key collides with a committed row. -/
def rowA : ItemRow :=
  { feed_id := 1, guid := "urn:a", title := none, url := none, image_url := none,
    content_html := none, content_text := none, published_at := none,
    fetched_at := 1000, hash := "h1" }

/-- A second, conflict-free item row of the same batch. -/
def rowB : ItemRow := { rowA with guid := "urn:b", hash := "h2" }

/-- Does the parse-error behavior claimed for C5 hold of a fetch run: a
FetchLog is appended, the feeds row receives an error-path update, no item is
written, and the outcome is error. -/
def claimC5Holds (res : FetchResult) (tr : List Eff) : Prop :=
  hasLogEff tr = true ∧ hasUpdateEff tr = true ∧ hasInsertEff tr = false ∧
    res.status = "error"

/-- C1: a successful feed fetch that persists one new item executes the item
bulk insert, the feed metadata update and the fetch_log append in THREE
separate transactions, each committing alone, and no single transaction of
the trace contains all three; the claim that they share one transaction fails
on the code (each helper opens its own session and commits). -/
theorem c1_three_transactions :
    ((dbTxns (fetch_feed envN [] feed1 (.resp rOk)).2).map
        (fun ops => (hasItemInsert ops, hasFeedUpdate ops, hasLogAppend ops)) =
      [(true, false, false), (false, true, false), (false, false, true)]) ∧
    singleTxnWrite (fetch_feed envN [] feed1 (.resp rOk)).2 = false := by
  constructor
  · rfl
  · rfl

/-- C2: the bulk insert of `_process_entries` is built without an ON CONFLICT
clause, so a batch holding a row whose (feed_id, guid) is already committed
fails with a unique violation and no row of the batch is inserted; the
claimed skip-and-continue behavior is what the statement would do only with
ON CONFLICT DO NOTHING. -/
theorem c2_plain_insert_aborts :
    execInsertItems [(1, "urn:a")] processEntriesOnConflictDoNothing [rowA, rowB] =
      .uniqueViolation (1, "urn:a") ∧
    execInsertItems [(1, "urn:a")] true [rowA, rowB] = .ok [rowB] := by
  constructor
  · rfl
  · rfl

/-- C3: the scheduler payload (json.dumps) decodes under the consumer's
json.loads to the job object, but the payloads of the manual-refresh and
feed-creation endpoints are pushed with str(dict), whose single-quoted Python
repr json.loads rejects, so decode composed with those producers is not the
identity. -/
theorem c3_job_payload_decode :
    jsonLoads (schedulerJobPayload ("8f14e45f") ("42") ("2025-01-19T12:00:00")
        ("http://feeds.example.com/rss")) =
      some (.jobj [("job_id", .jstr ("8f14e45f")), ("feed_id", .jstr ("42")),
                   ("scheduled_at", .jstr ("2025-01-19T12:00:00")),
                   ("url", .jstr ("http://feeds.example.com/rss"))]) ∧
    jsonLoads (refreshJobPayload ("8f14e45f") ("42") ("2025-01-19T12:00:00")) = none ∧
    jsonLoads (createFeedJobPayload ("9b2d") ("43") ("2025-01-19T12:05:00")) = none := by
  refine ⟨?_, ?_, ?_⟩
  · rfl
  · rfl
  · rfl

/-- C8: the fetch_status event is JSON but carries a numeric event-loop
timestamp, not an ISO-8601 UTC string, and the new_items event is published
as str(dict), which is not a JSON encoding at all (json.loads rejects it);
so not every published event is a JSON object with an ISO-8601 UTC string
timestamp. -/
theorem c8_event_encoding :
    dictGet ("timestamp")
        (publish_fetch_status 123456
          { status := "success", feed_id := 42, new_items := some 2, error := none }) =
      some (.pnum 123456) ∧
    (∀ s : String, PyVal.pnum 123456 ≠ .pstr s) ∧
    jsonLoads (newItemsPayload ("2025-01-19T12:00:00") 42 2) = none ∧
    jsonLoads (fetchStatusPayload 123456
        { status := "success", feed_id := 42, new_items := some 2, error := none }) =
      some (.jobj [("type", .jstr ("fetch_status")), ("timestamp", .jnum 123456),
                   ("data", .jobj [("feed_id", .jstr ("42")),
                                   ("status", .jstr ("ok")),
                                   ("message", .jnull)])]) := by
  refine ⟨rfl, fun s h => PyVal.noConfusion h, ?_, ?_⟩
  · rfl
  · rfl

/-- C4 counterexample: two due feeds tie on next_run_at while stored in
reverse id order; the tick selects them in storage order (2 before 1), not in
the claimed deterministic feed-id order, because the query orders by
next_run_at only. -/
theorem c4_tiebreak_counterexample :
    (schedulerSelect [feedT2, feedT1] 5 25).map SchedFeed.id = [2, 1] ∧
    (specSelect [feedT2, feedT1] 5 25).map SchedFeed.id = [1, 2] ∧
    schedulerSelect [feedT2, feedT1] 5 25 ≠ specSelect [feedT2, feedT1] 5 25 := by
  refine ⟨rfl, rfl, ?_⟩
  decide

/-- C4 amended: on a tick the selected feeds are exactly those with
next_run_at ≤ now (whenever at most scheduler_batch_size of them are due, and
always a subset of them), limited to scheduler_batch_size (default 25),
ordered ascending by next_run_at with ties left in the storage order of the
table rather than broken by feed id; each selected feed has exactly one job
enqueued, in order, and its next_run_at set to now + interval_seconds. -/
theorem c4_tick_amended (env : SchedEnv) (db : List SchedFeed) (now : Int)
    (batch : Nat) :
    (schedule_feeds env db now batch).jobs =
      ((schedulerSelect db now batch).enum.map (fun p =>
        schedulerJobPayload (env.jobIdOf p.1) (toString p.2.id) env.nowIso p.2.url)) ∧
    (schedule_feeds env db now batch).updates =
      ((schedulerSelect db now batch).map (fun f => (f.id, now + f.interval_seconds))) ∧
    (∀ f ∈ schedulerSelect db now batch, f.next_run_at ≤ now) ∧
    (schedulerSelect db now batch).length ≤ batch ∧
    (schedulerSelect db now batch).Sorted byNextRun ∧
    ((db.filter (fun f => f.next_run_at ≤ now)).length ≤ batch →
      List.Perm (schedulerSelect db now batch)
        (db.filter (fun f => f.next_run_at ≤ now))) ∧
    settings.scheduler_batch_size = 25 := by
  refine ⟨rfl, rfl, ?_, ?_, ?_, ?_, rfl⟩
  · intro f hf
    have h1 : f ∈ (db.filter (fun f => f.next_run_at ≤ now)).insertionSort byNextRun :=
      List.mem_of_mem_take hf
    have h2 : f ∈ db.filter (fun f => f.next_run_at ≤ now) :=
      (List.perm_insertionSort byNextRun _).mem_iff.mp h1
    simpa using (List.of_mem_filter h2)
  · exact List.length_take_le _ _
  · exact List.Pairwise.sublist (List.take_sublist _ _)
      (List.sorted_insertionSort byNextRun _)
  · intro hlen
    have hlen2 : ((db.filter (fun f => f.next_run_at ≤ now)).insertionSort
        byNextRun).length ≤ batch := by
      simpa [(List.perm_insertionSort byNextRun
        (db.filter (fun f => f.next_run_at ≤ now))).length_eq] using hlen
    unfold schedulerSelect
    rw [List.take_of_length_le hlen2]
    exact List.perm_insertionSort byNextRun _

/-- C4 witness: at the concrete tied table the amended selection is a
permutation of the due list. -/
theorem c4_tick_amended_witness :
    List.Perm (schedulerSelect [feedT2, feedT1] 5 25)
      ([feedT2, feedT1].filter (fun f => f.next_run_at ≤ 5)) :=
  (c4_tick_amended schedEnv0 [feedT2, feedT1] 5 25).2.2.2.2.2.1 (by decide)

/-- C5 counterexample: on a concrete 200 response that is unparseable and
exposes no entries, the run does NOT perform the claimed error-path update of
the feeds row (no updateFeed statement is executed anywhere in the trace), so
the worker does not behave the same as on a transport error. -/
theorem c5_counterexample :
    ¬ claimC5Holds (fetch_feed envX [] feed1 (.resp rBozo)).1
        (fetch_feed envX [] feed1 (.resp rBozo)).2 := by
  intro hcl
  exact absurd hcl.2.1 (by decide)

/-- C5 amended: on a syntactically unparseable document with no entries the
worker appends exactly one FetchLog (status 200, the body length, and the
parse-error message), writes no Items, and reports outcome error, but —
unlike the transport-error path — it does not update the Feed's
last_fetch_at and last_status. -/
theorem c5_parse_error_amended (env : FetchEnv) (dbItems : List (Nat × String))
    (feed : FeedRow) (r : RespData) (h200 : r.status_code = 200)
    (hb : r.bozo = true) (he : r.entries = []) :
    (fetch_feed env dbItems feed (.resp r)).1 =
      { status := "error", feed_id := feed.id, new_items := none,
        error := some ("Feed parse error: " ++ r.bozoMsg) } ∧
    loggedRows (fetch_feed env dbItems feed (.resp r)).2 =
      [{ feed_id := feed.id, status_code := 200, duration_ms := env.durationMs,
         bytes := r.contentLen, error := some ("Feed parse error: " ++ r.bozoMsg),
         fetched_at := env.now }] ∧
    insertedRows (fetch_feed env dbItems feed (.resp r)).2 = [] ∧
    feedUpdates (fetch_feed env dbItems feed (.resp r)).2 = [] := by
  refine ⟨?_, ?_, ?_, ?_⟩ <;>
    simp [fetch_feed, fetchFeedBody, h200, hb, he, log_fetch, update_feed_status,
      loggedRows, insertedRows, feedUpdates, dbTxns]

/-- C5 witness: the amended behavior evaluated at the concrete unparseable
response. -/
theorem c5_parse_error_amended_witness :
    loggedRows (fetch_feed envX [] feed1 (.resp rBozo)).2 =
      [{ feed_id := 1, status_code := 200, duration_ms := 5,
         bytes := 17, error := some ("Feed parse error: " ++ rBozo.bozoMsg),
         fetched_at := 1000 }] ∧
    feedUpdates (fetch_feed envX [] feed1 (.resp rBozo)).2 = [] :=
  ⟨(c5_parse_error_amended envX [] feed1 rBozo rfl rfl rfl).2.1,
   (c5_parse_error_amended envX [] feed1 rBozo rfl rfl rfl).2.2.2⟩

/-- C6: on a 304 response the trace appends exactly one FetchLog row with
status 304, zero bytes and no error, executes exactly one feeds-row update
carrying last_fetch_at and last_status 304 whose update data omits etag and
last_modified so those columns stay unchanged, inserts zero items, and the
result outcome is not_modified. -/
theorem c6_not_modified (env : FetchEnv) (dbItems : List (Nat × String))
    (feed : FeedRow) (r : RespData) (h : r.status_code = 304) :
    (fetch_feed env dbItems feed (.resp r)).1 =
      { status := "not_modified", feed_id := feed.id, new_items := some 0,
        error := none } ∧
    loggedRows (fetch_feed env dbItems feed (.resp r)).2 =
      [{ feed_id := feed.id, status_code := 304, duration_ms := env.durationMs,
         bytes := 0, error := none, fetched_at := env.now }] ∧
    feedUpdates (fetch_feed env dbItems feed (.resp r)).2 =
      [{ last_fetch_at := env.now, last_status := 304, updated_at := env.now,
         etag := none, last_modified := none, title := none }] ∧
    insertedRows (fetch_feed env dbItems feed (.resp r)).2 = [] ∧
    (∀ u ∈ feedUpdates (fetch_feed env dbItems feed (.resp r)).2,
      (applyFeedUpdate feed u).etag = feed.etag ∧
      (applyFeedUpdate feed u).last_modified = feed.last_modified ∧
      (applyFeedUpdate feed u).last_fetch_at = some env.now ∧
      (applyFeedUpdate feed u).last_status = some 304) := by
  refine ⟨?_, ?_, ?_, ?_, ?_⟩ <;>
    simp [fetch_feed, fetchFeedBody, h, log_fetch, update_feed_status,
      loggedRows, insertedRows, feedUpdates, dbTxns, applyFeedUpdate]

/-- C6 witness: the 304 behavior evaluated at a concrete feed stored with an
ETag; its etag and last_modified survive the update. -/
theorem c6_not_modified_witness :
    insertedRows (fetch_feed envX [] feed1 (.resp r304)).2 = [] ∧
    feedUpdates (fetch_feed envX [] feed1 (.resp r304)).2 =
      [{ last_fetch_at := 1000, last_status := 304, updated_at := 1000,
         etag := none, last_modified := none, title := none }] ∧
    (∀ u ∈ feedUpdates (fetch_feed envX [] feed1 (.resp r304)).2,
      (applyFeedUpdate feed1 u).etag = some ("W/abc") ∧
      (applyFeedUpdate feed1 u).last_modified = some 555) := by
  refine ⟨(c6_not_modified envX [] feed1 r304 rfl).2.2.2.1,
    (c6_not_modified envX [] feed1 r304 rfl).2.2.1, ?_⟩
  intro u hu
  exact ⟨((c6_not_modified envX [] feed1 r304 rfl).2.2.2.2 u hu).1,
    ((c6_not_modified envX [] feed1 r304 rfl).2.2.2.2 u hu).2.1⟩

/-- C7: the derived guid agrees everywhere with the spec derivation (explicit
identifier truncated to 512, else link truncated to 512, else SHA-256 hex of
title concatenated with the published string, else no identity); in
particular the fallback entry with title Hello and published
2025-01-19T12:00:00Z hashes their concatenation; and an entry with no guid
contributes no item row and no effect, i.e. is skipped. -/
theorem c7_guid_derivation :
    (∀ (h : String → String) (e : Entry), get_entry_guid h e = guidSpec h e) ∧
    (∀ h : String → String,
      get_entry_guid h { title := some ("Hello"),
                         published := some ("2025-01-19T12:00:00Z") } =
        some (pyTake 512 (h ("Hello2025-01-19T12:00:00Z")))) ∧
    (∀ (env : FetchEnv) (dbItems : List (Nat × String)) (feed : FeedRow)
        (e : Entry), get_entry_guid env.sha256hex e = none →
      (process_entry env dbItems feed e).1 = none ∧
      (process_entry env dbItems feed e).2 = []) := by
  refine ⟨?_, ?_, ?_⟩
  · intro h e
    obtain ⟨eid, elink, etitle, epub, e5, e6, e7, e8, e9, e10, e11, e12⟩ := e
    rcases eid with _ | i <;> rcases elink with _ | l <;> rcases etitle with _ | t <;>
      simp [get_entry_guid, guidSpec, guidSpecNoId, guidSpecNoLink, truthy, orEmpty] <;>
      split_ifs <;> simp_all [truthy, orEmpty]
  · intro h
    rfl
  · intro env dbItems feed e hg
    constructor <;> simp [process_entry, hg]

/-- C7 witness: an entry with no identifier, link, or title yields no guid
and is skipped by the processing loop. -/
theorem c7_guid_derivation_witness :
    (process_entry envX [] feed1 { }).1 = none ∧
    (process_entry envX [] feed1 { }).2 = [] :=
  c7_guid_derivation.2.2 envX [] feed1 { } rfl

/-- A trace with no gate effect acquires no gate. -/
theorem gateAcquires_of_gateFree (tr : List Eff) (h : gateFree tr = true) :
    gateAcquires tr = [] := by
  induction tr with
  | nil => rfl
  | cons x rest ih =>
    simp only [gateFree, List.all_cons, Bool.and_eq_true] at h
    have hrest := ih h.2
    cases x <;> simp_all [isGate, gateAcquires, List.filterMap_cons]

/-- A trace with no gate effect releases no gate. -/
theorem gateReleases_of_gateFree (tr : List Eff) (h : gateFree tr = true) :
    gateReleases tr = [] := by
  induction tr with
  | nil => rfl
  | cons x rest ih =>
    simp only [gateFree, List.all_cons, Bool.and_eq_true] at h
    have hrest := ih h.2
    cases x <;> simp_all [isGate, gateReleases, List.filterMap_cons]

/-- gateFree distributes over appends. -/
theorem gateFree_append (a b : List Eff) :
    gateFree (a ++ b) = (gateFree a && gateFree b) := by
  simp [gateFree, List.all_append]

/-- The empty trace is gate-free. -/
theorem gateFree_nil : gateFree [] = true := rfl

/-- gateFree computed on a cons. -/
theorem gateFree_cons (x : Eff) (tr : List Eff) :
    gateFree (x :: tr) = (!isGate x && gateFree tr) := by
  simp [gateFree]

/-- A lone transaction is gate-free. -/
theorem gateFree_txn (ops : List DbOp) : gateFree [Eff.txn ops] = true := rfl

/-- A lone HTTP request is gate-free. -/
theorem gateFree_httpGet (h u : String) : gateFree [Eff.httpGet h u] = true := rfl

/-- A lone publish is gate-free. -/
theorem gateFree_publish (c p : String) :
    gateFree [Eff.publishEvent c p] = true := rfl

/-- The article request of one entry is a gate-free effect list. -/
theorem articleRequestEffs_gateFree (env : FetchEnv) (url : Option String) :
    gateFree (articleRequestEffs env url) = true := by
  unfold articleRequestEffs
  split_ifs <;> rfl

/-- One loop iteration of `_process_entries` emits no gate effect. -/
theorem process_entry_gateFree (env : FetchEnv) (dbItems : List (Nat × String))
    (feed : FeedRow) (e : Entry) :
    gateFree (process_entry env dbItems feed e).2 = true := by
  unfold process_entry
  rcases hg : get_entry_guid env.sha256hex e with _ | g
  · rfl
  · dsimp only
    split_ifs <;> first
      | rfl
      | exact articleRequestEffs_gateFree env _

/-- The `_process_entries` loop emits no gate effect. -/
theorem processEntriesLoop_gateFree (env : FetchEnv) (dbItems : List (Nat × String))
    (feed : FeedRow) (es : List Entry) :
    gateFree (processEntriesLoop env dbItems feed es).2 = true := by
  induction es with
  | nil => rfl
  | cons e rest ih =>
    unfold processEntriesLoop
    simp [gateFree_append, process_entry_gateFree, ih]

/-- `_process_entries` emits no gate effect. -/
theorem process_entries_gateFree (env : FetchEnv) (dbItems : List (Nat × String))
    (feed : FeedRow) (es : List Entry) :
    gateFree (process_entries env dbItems feed es).2 = true := by
  unfold process_entries
  split_ifs with h1
  · rfl
  · dsimp only
    rw [gateFree_append]
    rw [processEntriesLoop_gateFree]
    split_ifs <;> rfl

/-- The body of `fetch_feed` (everything inside the semaphore block) emits
no gate effect: the only gate handling of a fetch is the feed-host semaphore
around the body. -/
theorem fetchFeedBody_gateFree (env : FetchEnv) (dbItems : List (Nat × String))
    (feed : FeedRow) (out : HttpOutcome) :
    gateFree (fetchFeedBody env dbItems feed out).2 = true := by
  rcases out with msg | r
  · rfl
  · unfold fetchFeedBody
    dsimp only
    split_ifs <;>
      simp [gateFree_cons, gateFree_append, gateFree_nil,
        process_entries_gateFree, log_fetch, update_feed_status, isGate]

/-- The first effect inside the semaphore block is always the feed GET. -/
theorem fetchFeedBody_head (env : FetchEnv) (dbItems : List (Nat × String))
    (feed : FeedRow) (out : HttpOutcome) :
    ((fetchFeedBody env dbItems feed out).2).head? =
      some (Eff.httpGet (netloc feed.url) feed.url) := by
  rcases out with msg | r
  · rfl
  · unfold fetchFeedBody
    dsimp only
    split_ifs <;> rfl

/-- C9 counterexample: a fetch of a feed on feeds.example.com whose entry
links to an article on cdn.example.org issues the article GET with no gate
for the article origin held (the only gate ever acquired is the feed host
one), so not every request runs under a bounded-concurrency gate keyed by its
own host. -/
theorem c9_article_gate_counterexample :
    requestsGuarded (fetch_feed envX [] feed1 (.resp rArt)).2 [] = false ∧
    Eff.httpGet ("cdn.example.org") ("http://cdn.example.org/article/1") ∈
      (fetch_feed envX [] feed1 (.resp rArt)).2 ∧
    gateAcquires (fetch_feed envX [] feed1 (.resp rArt)).2 =
      ["feeds.example.com"] := by
  refine ⟨rfl, ?_, rfl⟩
  decide

/-- C9 amended: every feed fetch acquires exactly one politeness gate — the
one keyed by the host of the feed url — holds it from the first effect to the
last (so it is released on every exit path), issues the feed GET under it,
and per_host_concurrency defaults to 2; article-content GETs issued during
extraction run while that same feed-host gate is held and acquire no gate
keyed by the article origin. -/
theorem c9_gate_amended (env : FetchEnv) (dbItems : List (Nat × String))
    (feed : FeedRow) (out : HttpOutcome) :
    (fetch_feed env dbItems feed out).2.head? =
      some (Eff.acquireGate (netloc feed.url)) ∧
    (fetch_feed env dbItems feed out).2.getLast? =
      some (Eff.releaseGate (netloc feed.url)) ∧
    gateAcquires (fetch_feed env dbItems feed out).2 = [netloc feed.url] ∧
    gateReleases (fetch_feed env dbItems feed out).2 = [netloc feed.url] ∧
    Eff.httpGet (netloc feed.url) feed.url ∈ (fetch_feed env dbItems feed out).2 ∧
    settings.per_host_concurrency = 2 := by
  have hbody := fetchFeedBody_gateFree env dbItems feed out
  have hA := gateAcquires_of_gateFree _ hbody
  have hR := gateReleases_of_gateFree _ hbody
  have hhead := fetchFeedBody_head env dbItems feed out
  have hmem : Eff.httpGet (netloc feed.url) feed.url ∈
      (fetchFeedBody env dbItems feed out).2 := by
    rcases hb : (fetchFeedBody env dbItems feed out).2 with _ | ⟨y, ys⟩
    · rw [hb] at hhead; cases hhead
    · rw [hb, List.head?_cons] at hhead
      have hy := Option.some.inj hhead
      subst hy
      exact List.mem_cons_self _ _
  refine ⟨rfl, ?_, ?_, ?_, ?_, rfl⟩
  · show (Eff.acquireGate (netloc feed.url) ::
        ((fetchFeedBody env dbItems feed out).2 ++
          [Eff.releaseGate (netloc feed.url)])).getLast? = _
    rw [← List.cons_append, List.getLast?_concat]
  · show gateAcquires (Eff.acquireGate (netloc feed.url) ::
        ((fetchFeedBody env dbItems feed out).2 ++
          [Eff.releaseGate (netloc feed.url)])) = _
    simp only [gateAcquires, List.filterMap_cons, List.filterMap_append] at hA ⊢
    simp [hA]
  · show gateReleases (Eff.acquireGate (netloc feed.url) ::
        ((fetchFeedBody env dbItems feed out).2 ++
          [Eff.releaseGate (netloc feed.url)])) = _
    simp only [gateReleases, List.filterMap_cons, List.filterMap_append] at hR ⊢
    simp [hR]
  · show Eff.httpGet (netloc feed.url) feed.url ∈
      Eff.acquireGate (netloc feed.url) ::
        ((fetchFeedBody env dbItems feed out).2 ++
          [Eff.releaseGate (netloc feed.url)])
    exact List.mem_cons_of_mem _ (List.mem_append_left _ hmem)

/-- C10: the status field of a published fetch_status event is "ok" exactly
when the fetch result status is "success"; any other outcome — in particular
the not_modified outcome a 304 response produces — is published with status
"error", identically to a failed fetch. -/
theorem c10_fetch_status_ok_iff_success (lt : Int) (env : FetchEnv)
    (dbItems : List (Nat × String)) (feed : FeedRow) (r : RespData)
    (h : r.status_code = 304) :
    (∀ res : FetchResult,
      eventDataStatus (publish_fetch_status lt res) = some (.pstr ("ok")) ↔
        res.status = "success") ∧
    (∀ res : FetchResult, res.status ≠ "success" →
      eventDataStatus (publish_fetch_status lt res) = some (.pstr ("error"))) ∧
    (fetch_feed env dbItems feed (.resp r)).1.status = "not_modified" ∧
    eventDataStatus
        (publish_fetch_status lt (fetch_feed env dbItems feed (.resp r)).1) =
      some (.pstr ("error")) := by
  have herr : ∀ res : FetchResult, res.status ≠ "success" →
      eventDataStatus (publish_fetch_status lt res) = some (.pstr ("error")) := by
    intro res hs
    have hb : (res.status == "success") = false := beq_eq_false_iff_ne.mpr hs
    simp [eventDataStatus, publish_fetch_status, dictGet, hb]
  have hstat : (fetch_feed env dbItems feed (.resp r)).1.status = "not_modified" := by
    simp [fetch_feed, fetchFeedBody, h]
  refine ⟨?_, herr, hstat, ?_⟩
  · intro res
    by_cases hs : res.status = "success"
    · have hb : (res.status == "success") = true := beq_iff_eq.mpr hs
      simp [eventDataStatus, publish_fetch_status, dictGet, hb, hs]
    · have hb : (res.status == "success") = false := beq_eq_false_iff_ne.mpr hs
      simp [eventDataStatus, publish_fetch_status, dictGet, hb, hs]
  · refine herr _ ?_
    rw [hstat]
    decide

/-- C10 witness: the 304 fetch at the concrete feed is reported not_modified
yet published with status "error". -/
theorem c10_fetch_status_witness :
    (fetch_feed envX [] feed1 (.resp r304)).1.status = "not_modified" ∧
    eventDataStatus
        (publish_fetch_status 7 (fetch_feed envX [] feed1 (.resp r304)).1) =
      some (.pstr ("error")) :=
  ⟨(c10_fetch_status_ok_iff_success 7 envX [] feed1 r304 rfl).2.2.1,
   (c10_fetch_status_ok_iff_success 7 envX [] feed1 r304 rfl).2.2.2⟩

end FeedReader
